import Mathlib

/-!
Verification of the container-backed sandbox pool (state machine, pool
manager, container driver) of the `oss-data-analyst` repository, as a
shallow embedding in Lean 4.

Conventions of the embedding:
* The eight lifecycle states and the transition table are transcribed from
  `src/lib/sandbox/state-machine.ts`.
* The manager (`src/lib/sandbox/config.ts`, class `SandboxManager`) keeps a
  `Map<string, TrackedSandbox>` and a ready queue of ids.  The map is
  modelled as an insertion-ordered list of `TrackedSandbox` records (each
  record carries its own id, ids are unique), the queue as a list of ids.
* Asynchronous engine calls (`createContainer`, `startContainer`,
  `stopContainer`, `removeContainer`, `execInContainer`,
  `initContainerPython`) are modelled by outcome oracles passed in as
  arguments, and the calls a code path performs are recorded in an
  explicit `ContainerOp` trace.
* Thrown JavaScript exceptions are modelled with `Except` / an explicit
  `thrown` field; an absorbed (caught-and-logged) error never appears in
  the result's exception position.
* Event emission (`emit`) is modelled by an explicit `SandboxEvent` trace.
-/

namespace SandboxPool

/-- The eight lifecycle states of `SandboxState` (types.ts). -/
inductive SandboxState where
  | Creating
  | Initializing
  | Ready
  | Executing
  | Idle
  | Suspended
  | Destroyed
  | Error
  deriving DecidableEq, Repr, Fintype

/-- `InvalidTransitionError(from, to)` (types.ts). -/
structure InvalidTransitionError where
  fromState : SandboxState
  toState : SandboxState
  deriving DecidableEq, Repr

instance {ε α : Type} [DecidableEq ε] [DecidableEq α] : DecidableEq (Except ε α) := fun x y =>
  match x, y with
  | .ok a, .ok b => decidable_of_iff (a = b) (by simp)
  | .error a, .error b => decidable_of_iff (a = b) (by simp)
  | .ok _, .error _ => isFalse (fun h => Except.noConfusion h)
  | .error _, .ok _ => isFalse (fun h => Except.noConfusion h)

/-- The transition table `VALID_TRANSITIONS` (state-machine.ts, lines 3-12). -/
def VALID_TRANSITIONS : SandboxState → List SandboxState
  | .Creating => [.Initializing, .Error, .Destroyed]
  | .Initializing => [.Ready, .Error, .Destroyed]
  | .Ready => [.Executing, .Destroyed]
  | .Executing => [.Idle, .Error, .Destroyed]
  | .Idle => [.Ready, .Suspended, .Destroyed]
  | .Suspended => [.Initializing, .Destroyed]
  | .Destroyed => []
  | .Error => [.Creating, .Destroyed]

/-- `transition(from, to)` (state-machine.ts, lines 14-20): returns `to`
when the table allows it, otherwise throws `InvalidTransitionError`. -/
def transition (f t : SandboxState) : Except InvalidTransitionError SandboxState :=
  if (VALID_TRANSITIONS f).contains t then .ok t else .error ⟨f, t⟩

/-- `canTransition(from, to)` (state-machine.ts, lines 22-24). -/
def canTransition (f t : SandboxState) : Bool :=
  (VALID_TRANSITIONS f).contains t

/-- The transition table exactly as the spec's §3 table lists it, as a list
of allowed (from, to) pairs.  This is the spec-side definition against
which the code's table is compared. -/
def specTransitionPairs : List (SandboxState × SandboxState) :=
  [(.Creating, .Initializing), (.Creating, .Error), (.Creating, .Destroyed),
   (.Initializing, .Ready), (.Initializing, .Error), (.Initializing, .Destroyed),
   (.Ready, .Executing), (.Ready, .Destroyed),
   (.Executing, .Idle), (.Executing, .Error), (.Executing, .Destroyed),
   (.Idle, .Ready), (.Idle, .Suspended), (.Idle, .Destroyed),
   (.Suspended, .Initializing), (.Suspended, .Destroyed),
   (.Error, .Creating), (.Error, .Destroyed)]

/-- Spec-side allowedness of a pair, read off the spec's table. -/
def specAllowed (f t : SandboxState) : Bool :=
  specTransitionPairs.contains (f, t)

/-! ## Pool data model (types.ts, config.ts `SandboxManager`) -/

/-- `TrackedSandbox` (types.ts).  `hasContainer` models whether the
`container` field has been assigned (it starts as `null` and is set once
`createContainer` returns). -/
structure TrackedSandbox where
  id : String
  hasContainer : Bool
  state : SandboxState
  createdAt : Nat
  lastUsedAt : Nat
  healthFailures : Nat
  sessionId : Option String
  deriving DecidableEq, Repr

/-- The manager's mutable pool state: the `sandboxes` map (insertion-ordered,
ids unique) and the `readyQueue` of ids. -/
structure PoolState where
  sandboxes : List TrackedSandbox
  readyQueue : List String
  deriving DecidableEq, Repr

/-- `PoolConfig` (types.ts). -/
structure PoolConfig where
  minWarm : Nat
  maxTotal : Nat
  maxIdleMs : Nat
  deriving DecidableEq, Repr

/-- `HealthCheckConfig` (types.ts). -/
structure HealthCheckConfig where
  intervalMs : Nat
  maxFailures : Nat
  deriving DecidableEq, Repr

/-- The slice of `SandboxConfig` the manager operations under verification
consult (pool bounds and health-check policy). -/
structure SandboxConfig where
  pool : PoolConfig
  healthCheck : HealthCheckConfig
  deriving DecidableEq, Repr

/-- `SandboxEvent` (types.ts); the `error` payload type is dropped, only
the sandbox id is kept. -/
inductive SandboxEvent where
  | created (sandboxId : String)
  | stateChange (sandboxId : String) (fromState toState : SandboxState)
  | destroyed (sandboxId : String) (reason : String)
  | healthCheckFailed (sandboxId : String) (failures : Nat)
  | errorEvent (sandboxId : String)
  deriving DecidableEq, Repr

/-- A container-engine call issued by a code path (the op trace). -/
inductive ContainerOp where
  | createOp (id : String)
  | startOp (id : String)
  | initPythonOp (id : String)
  | stopOp (id : String)
  | removeOp (id : String)
  | execOp (id : String) (cmd : String) (timeoutMs : Option Nat)
  deriving DecidableEq, Repr

/-- `Map.get(id)` on the sandboxes map. -/
def findSandbox (l : List TrackedSandbox) (id : String) : Option TrackedSandbox :=
  l.find? (fun t => t.id == id)

/-- `Map.set(id, t)`: replace the entry with `t.id` if present, else append
(JS `Map` keeps insertion order). -/
def setSandbox (l : List TrackedSandbox) (t : TrackedSandbox) : List TrackedSandbox :=
  match l with
  | [] => [t]
  | h :: r => if h.id == t.id then t :: r else h :: setSandbox r t

/-- `Map.delete(id)`. -/
def removeSandbox (l : List TrackedSandbox) (id : String) : List TrackedSandbox :=
  l.filter (fun t => t.id != id)

/-- `[...this.sandboxes.values()].filter(s => s.state === Ready).length`. -/
def readyCountOf (l : List TrackedSandbox) : Nat :=
  (l.filter (fun t => t.state == SandboxState.Ready)).length

/-! ## Container driver error model (container.ts) -/

/-- Outcome of a raw engine call: resolved, or rejected with an error that
optionally carries an HTTP `statusCode`. -/
inductive DockerOutcome where
  | ok
  | errStatus (statusCode : Option Nat)
  deriving DecidableEq, Repr

/-- `stopContainer` (container.ts, lines 62-69): absorbs a 304
("already stopped") rejection, rethrows anything else. -/
def stopContainer (o : DockerOutcome) : Except DockerOutcome Unit :=
  match o with
  | .ok => .ok ()
  | .errStatus c => if c = some 304 then .ok () else .error (.errStatus c)

/-- `removeContainer` (container.ts, lines 74-81): absorbs a 404
("already removed") rejection, rethrows anything else. -/
def removeContainer (o : DockerOutcome) : Except DockerOutcome Unit :=
  match o with
  | .ok => .ok ()
  | .errStatus c => if c = some 404 then .ok () else .error (.errStatus c)

/-! ## destroySandbox (config.ts, lines 348-363) -/

/-- Result of `destroySandbox`: the final pool, the event and op traces,
the pool as it stood while the container teardown calls ran (showing the
direct write of `Destroyed`), and the error the `catch` block logged, if
any.  The function is total: the call itself never rejects. -/
structure DestroyResult where
  pool : PoolState
  events : List SandboxEvent
  ops : List ContainerOp
  poolDuring : PoolState
  loggedError : Option DockerOutcome
  deriving DecidableEq, Repr

/-- `destroySandbox(sandboxId, reason)` (config.ts, lines 348-363), with
the outcomes of the raw `container.stop` / `container.remove` calls passed
in as `stopO` / `removeO`. -/
def destroySandbox (st : PoolState) (sandboxId reason : String)
    (stopO removeO : DockerOutcome) : DestroyResult :=
  match findSandbox st.sandboxes sandboxId with
  | none => ⟨st, [], [], st, none⟩
  | some t =>
    if t.state = .Destroyed then ⟨st, [], [], st, none⟩
    else
      -- `tracked.state = Destroyed` — direct set, bypassing the table
      let mid : PoolState :=
        { st with sandboxes := setSandbox st.sandboxes { t with state := .Destroyed } }
      -- try { stopContainer; removeContainer } catch { log }
      let opsErr : List ContainerOp × Option DockerOutcome :=
        match stopContainer stopO with
        | .error e => ([.stopOp sandboxId], some e)
        | .ok _ =>
          match removeContainer removeO with
          | .error e => ([.stopOp sandboxId, .removeOp sandboxId], some e)
          | .ok _ => ([.stopOp sandboxId, .removeOp sandboxId], none)
      -- finally { delete map entry; filter queue; emit destroyed }
      let fin : PoolState :=
        { sandboxes := removeSandbox mid.sandboxes sandboxId,
          readyQueue := mid.readyQueue.filter (fun i => i != sandboxId) }
      ⟨fin, [.destroyed sandboxId reason], opsErr.1, mid, opsErr.2⟩

/-! ## Fresh-sandbox creation (config.ts, lines 273-337) -/

/-- How one creation attempt's engine calls turn out: all succeed, or the
first rejection happens at `createContainer`, `startContainer`, or
`initContainerPython` (the latter covers both a thrown timeout and the
`Python setup failed` error on non-zero exit). -/
inductive AttemptOutcome where
  | success
  | createFail
  | startFail
  | initFail
  deriving DecidableEq, Repr

/-- Result of one creation attempt: final pool, event and op traces, and
`.ok id` on success or `.error cause` when the attempt threw. -/
structure AttemptResult where
  pool : PoolState
  events : List SandboxEvent
  ops : List ContainerOp
  outcome : Except AttemptOutcome String
  deriving DecidableEq, Repr

/-- The shared body of `createTrackedSandbox` / `createTrackedSandboxRetry`
(the source duplicates it): insert a `Creating` record into the pool map,
then `createContainer`, assign `container`, transition `Initializing`,
`startContainer`, `initContainerPython`, transition `Ready`.  The
`Creating → Initializing` and `Initializing → Ready` transitions are
table-legal (`transition` returns `.ok` on them by `rfl`), so
`transitionSandbox` just updates the record and emits `state-change`.
On failure the thrown error propagates (`outcome = .error cause`) and the
pool keeps whatever had been written so far. -/
def sandboxCreateAttempt (st : PoolState) (id : String) (sessionId : Option String)
    (now : Nat) (o : AttemptOutcome) : AttemptResult :=
  let tracked : TrackedSandbox := ⟨id, false, .Creating, now, now, 0, sessionId⟩
  let st0 : PoolState := { st with sandboxes := setSandbox st.sandboxes tracked }
  match o with
  | .createFail =>
    ⟨st0, [], [.createOp id], .error .createFail⟩
  | .startFail =>
    let t2 : TrackedSandbox := { tracked with hasContainer := true, state := .Initializing }
    ⟨{ st0 with sandboxes := setSandbox st0.sandboxes t2 },
      [.stateChange id .Creating .Initializing],
      [.createOp id, .startOp id], .error .startFail⟩
  | .initFail =>
    let t2 : TrackedSandbox := { tracked with hasContainer := true, state := .Initializing }
    ⟨{ st0 with sandboxes := setSandbox st0.sandboxes t2 },
      [.stateChange id .Creating .Initializing],
      [.createOp id, .startOp id, .initPythonOp id], .error .initFail⟩
  | .success =>
    let t3 : TrackedSandbox := { tracked with hasContainer := true, state := .Ready }
    ⟨{ st0 with sandboxes := setSandbox st0.sandboxes t3 },
      [.stateChange id .Creating .Initializing, .stateChange id .Initializing .Ready],
      [.createOp id, .startOp id, .initPythonOp id], .ok id⟩

/-- `createTrackedSandboxRetry` (config.ts, lines 315-337): identical body,
no `created` event, no catch — a failure propagates to the caller and the
attempt's pool-map entry stays behind. -/
def createTrackedSandboxRetry (st : PoolState) (id : String) (sessionId : Option String)
    (now : Nat) (o : AttemptOutcome) : AttemptResult :=
  sandboxCreateAttempt st id sessionId now o

/-- `SandboxUnavailableError(cause)` raised when the creation retry also
fails (config.ts, lines 309-311). -/
inductive CreateError where
  | sandboxUnavailable (cause : AttemptOutcome)
  deriving DecidableEq, Repr

/-- Result of `createTrackedSandbox`: final pool, event and op traces, and
`.ok id` of the sandbox actually created, or `.error` when the operation
rejects. -/
structure CreateResult where
  pool : PoolState
  events : List SandboxEvent
  ops : List ContainerOp
  outcome : Except CreateError String
  deriving DecidableEq, Repr

/-- `createTrackedSandbox` (config.ts, lines 273-313): run the attempt body
for the first id (emitting `created` right after the map insert); on any
failure, best-effort `removeContainer` (only if `tracked.container` was
assigned, i.e. the attempt got past `createContainer`; its errors are
swallowed by `.catch(() => {})`), delete the pool entry, emit `error`, and
run `createTrackedSandboxRetry` with the second id; if the retry throws,
wrap its cause in `SandboxUnavailableError`. -/
def createTrackedSandbox (st : PoolState) (id1 id2 : String) (sessionId : Option String)
    (now : Nat) (o1 o2 : AttemptOutcome) : CreateResult :=
  let r1 := sandboxCreateAttempt st id1 sessionId now o1
  match r1.outcome with
  | .ok cid => ⟨r1.pool, .created id1 :: r1.events, r1.ops, .ok cid⟩
  | .error cause =>
    let cleanupOps : List ContainerOp :=
      match cause with
      | .createFail => []  -- `tracked.container` was never assigned
      | _ => [.removeOp id1]
    let stc : PoolState :=
      { r1.pool with sandboxes := removeSandbox r1.pool.sandboxes id1 }
    let r2 := createTrackedSandboxRetry stc id2 sessionId now o2
    let events := (.created id1 :: r1.events) ++ [.errorEvent id1] ++ r2.events
    let ops := r1.ops ++ cleanupOps ++ r2.ops
    match r2.outcome with
    | .ok cid => ⟨r2.pool, events, ops, .ok cid⟩
    | .error cause2 => ⟨r2.pool, events, ops, .error (.sandboxUnavailable cause2)⟩

/-- `true` exactly on `destroyed` events. -/
def isDestroyedEvent : SandboxEvent → Bool
  | .destroyed _ _ => true
  | _ => false

/-- The record a creation attempt leaves in the pool map, by outcome
(read off `sandboxCreateAttempt`). -/
def attemptRecord (id : String) (sid : Option String) (now : Nat) :
    AttemptOutcome → TrackedSandbox
  | .createFail => ⟨id, false, .Creating, now, now, 0, sid⟩
  | .startFail => ⟨id, true, .Initializing, now, now, 0, sid⟩
  | .initFail => ⟨id, true, .Initializing, now, now, 0, sid⟩
  | .success => ⟨id, true, .Ready, now, now, 0, sid⟩

/-- The events a creation attempt emits, by outcome. -/
def attemptEvents (id : String) : AttemptOutcome → List SandboxEvent
  | .createFail => []
  | .startFail => [.stateChange id .Creating .Initializing]
  | .initFail => [.stateChange id .Creating .Initializing]
  | .success => [.stateChange id .Creating .Initializing,
                 .stateChange id .Initializing .Ready]

/-- The engine calls a creation attempt performs, by outcome. -/
def attemptOps (id : String) : AttemptOutcome → List ContainerOp
  | .createFail => [.createOp id]
  | .startFail => [.createOp id, .startOp id]
  | .initFail => [.createOp id, .startOp id, .initPythonOp id]
  | .success => [.createOp id, .startOp id, .initPythonOp id]

/-- The return/throw behaviour of a creation attempt, by outcome. -/
def attemptOutcomeOf (id : String) : AttemptOutcome → Except AttemptOutcome String
  | .success => .ok id
  | .createFail => .error .createFail
  | .startFail => .error .startFail
  | .initFail => .error .initFail

/-- The best-effort cleanup call after a failed first attempt:
`removeContainer` runs only when `tracked.container` had been assigned,
i.e. when the attempt got past `createContainer`. -/
def cleanupOpsOf (id : String) : AttemptOutcome → List ContainerOp
  | .createFail => []
  | _ => [.removeOp id]

/-- What `createTrackedSandbox` returns/raises once it is on the retry
path, by the retry's outcome. -/
def retryOutcomeOf (id : String) : AttemptOutcome → Except CreateError String
  | .success => .ok id
  | o => .error (.sandboxUnavailable o)

/-! ## release (config.ts, lines 209-224) -/

/-- Result of `release`: final pool, event trace, and the
`InvalidTransitionError` that propagated out of the call, if any
(mutations made before the throw persist, which the `pool` field
reflects). -/
structure ReleaseResult where
  pool : PoolState
  events : List SandboxEvent
  thrown : Option InvalidTransitionError
  deriving DecidableEq, Repr

/-- `release(sandboxId)` (config.ts, lines 209-224): unknown id is a silent
no-op; otherwise `transitionSandbox(tracked, Idle)` (throwing
`InvalidTransition` before any mutation if the record is not `Executing`),
clear `sessionId`, stamp `lastUsedAt`, and if the count of `Ready`
sandboxes (computed on the updated map) is below `minWarm`, transition
further `Idle → Ready` and push the id onto the ready queue. -/
def release (cfg : SandboxConfig) (st : PoolState) (sandboxId : String)
    (now : Nat) : ReleaseResult :=
  match findSandbox st.sandboxes sandboxId with
  | none => ⟨st, [], none⟩
  | some t =>
    match transition t.state .Idle with
    | .error e => ⟨st, [], some e⟩
    | .ok s =>
      let t1 : TrackedSandbox := { t with state := s, sessionId := none, lastUsedAt := now }
      let st1 : PoolState := { st with sandboxes := setSandbox st.sandboxes t1 }
      let ev1 : SandboxEvent := .stateChange sandboxId t.state .Idle
      if readyCountOf st1.sandboxes < cfg.pool.minWarm then
        match transition t1.state .Ready with
        | .error e => ⟨st1, [ev1], some e⟩
        | .ok s2 =>
          let t2 : TrackedSandbox := { t1 with state := s2 }
          ⟨{ sandboxes := setSandbox st1.sandboxes t2,
             readyQueue := st1.readyQueue ++ [sandboxId] },
            [ev1, .stateChange sandboxId t1.state .Ready], none⟩
      else ⟨st1, [ev1], none⟩

/-- The op list of the teardown try-block, by the stop call's outcome
(read off `destroySandbox`): when `stopContainer` rethrows, the block
aborts before `removeContainer`. -/
def teardownOps (id : String) (stopO : DockerOutcome) : List ContainerOp :=
  match stopContainer stopO with
  | .error _ => [.stopOp id]
  | .ok _ => [.stopOp id, .removeOp id]

/-- The error the teardown catch block logs, if any. -/
def teardownLogged (stopO removeO : DockerOutcome) : Option DockerOutcome :=
  match stopContainer stopO with
  | .error e => some e
  | .ok _ =>
    match removeContainer removeO with
    | .error e => some e
    | .ok _ => none

/-! ## Health-check loop (config.ts, lines 381-410) -/

/-- How the health probe's `execInContainer` call turns out: resolved with
an exit code, or threw (timeout or stream error). -/
inductive ProbeOutcome where
  | exitCode (code : Int)
  | threw
  deriving DecidableEq, Repr

/-- A single-quote character, as a string. -/
def squote : String := String.mk [Char.ofNat 39]

/-- The liveness probe command run against `Ready`/`Idle` sandboxes. -/
def healthProbeCmd : String := "python3 -c " ++ squote ++ "print(1)" ++ squote

/-- Result of a health-check tick (or one iteration of it): final pool,
event and op traces, the ids probed, and how many asynchronous
`warmOne()` replacements were requested (fire-and-forget, errors
swallowed — their effects land outside the tick). -/
structure HealthResult where
  pool : PoolState
  events : List SandboxEvent
  ops : List ContainerOp
  probed : List String
  warmRequests : Nat
  deriving DecidableEq, Repr

/-- One iteration of the health-check loop body (config.ts, lines
386-408) for the captured record `t`: probe with a 5000 ms timeout, reset
`healthFailures` on exit code 0 and increment it on any other outcome
(including a thrown timeout); once the counter reaches `maxFailures`,
emit `health-check-failed`, destroy the sandbox with reason
`health-check-failure`, and request one warm replacement if the `Ready`
count dropped below `minWarm`.  `probeFailures` is the counter update
(config.ts, lines 388-396). -/
def probeFailures (t : TrackedSandbox) : ProbeOutcome → Nat
  | .exitCode c => if c = 0 then 0 else t.healthFailures + 1
  | .threw => t.healthFailures + 1

def healthCheckOne (cfg : SandboxConfig) (st : PoolState) (t : TrackedSandbox)
    (probe : ProbeOutcome) (stopO removeO : DockerOutcome) : HealthResult :=
  let hf : Nat := probeFailures t probe
  let t1 : TrackedSandbox := { t with healthFailures := hf }
  let st1 : PoolState := { st with sandboxes := setSandbox st.sandboxes t1 }
  let probeOp : ContainerOp := .execOp t.id healthProbeCmd (some 5000)
  if cfg.healthCheck.maxFailures ≤ hf then
    let d := destroySandbox st1 t.id "health-check-failure" stopO removeO
    let warm : Nat := if readyCountOf d.pool.sandboxes < cfg.pool.minWarm then 1 else 0
    ⟨d.pool, .healthCheckFailed t.id hf :: d.events, probeOp :: d.ops, [t.id], warm⟩
  else ⟨st1, [], [probeOp], [t.id], 0⟩

/-- The loop over the captured `checkable` list, threading the pool. -/
def healthGo (cfg : SandboxConfig) (probes : String → ProbeOutcome)
    (stops removes : String → DockerOutcome) :
    List TrackedSandbox → PoolState → HealthResult
  | [], st => ⟨st, [], [], [], 0⟩
  | t :: rest, st =>
    let r1 := healthCheckOne cfg st t (probes t.id) (stops t.id) (removes t.id)
    let r2 := healthGo cfg probes stops removes rest r1.pool
    ⟨r2.pool, r1.events ++ r2.events, r1.ops ++ r2.ops, r1.probed ++ r2.probed,
      r1.warmRequests + r2.warmRequests⟩

/-- `healthCheckLoop` (config.ts, lines 381-410): snapshot the sandboxes
currently in `Ready` or `Idle`, then run the loop body on each. -/
def healthCheckLoop (cfg : SandboxConfig) (st : PoolState)
    (probes : String → ProbeOutcome) (stops removes : String → DockerOutcome) :
    HealthResult :=
  let checkable := st.sandboxes.filter
    (fun s => s.state == SandboxState.Ready || s.state == SandboxState.Idle)
  healthGo cfg probes stops removes checkable st

/-! ## execInContainer stream parsing (container.ts, lines 87-164)

The wire buffer is modelled as a list of bytes (`List Nat`).  The decoded
output strings are also kept as byte lists: for valid UTF-8, decoding
commutes with concatenation, so `stdout += content` on decoded strings is
byte concatenation here, and JS `String.trim` becomes trimming whitespace
bytes. -/

/-- `buffer.readUInt8(offset)` is `headD`; `buffer.readUInt32BE(offset+4)`
on the first four bytes of its argument. -/
def readU32BE (l : List Nat) : Nat :=
  l.getD 0 0 * 2 ^ 24 + l.getD 1 0 * 2 ^ 16 + l.getD 2 0 * 2 ^ 8 + l.getD 3 0

/-- Big-endian 4-byte encoding of `n` (for building frames). -/
def u32be (n : Nat) : List Nat :=
  [n / 2 ^ 24 % 256, n / 2 ^ 16 % 256, n / 2 ^ 8 % 256, n % 256]

/-- The frame-parsing loop (container.ts, lines 133-144): while at least 8
header bytes remain, read the stream tag (byte 0) and the big-endian
payload length (bytes 4-7); stop without error when the payload would
overrun the buffer; route tag 1 to stdout and tag 2 to stderr. -/
def demuxStream (buf : List Nat) : List Nat × List Nat :=
  if h : buf.length < 8 then ([], [])
  else
    let tag := buf.headD 0
    let len := readU32BE (buf.drop 4)
    let rest := buf.drop 8
    if hl : len ≤ rest.length then
      let payload := rest.take len
      let p := demuxStream (rest.drop len)
      (if tag = 1 then payload ++ p.1 else p.1,
       if tag = 2 then payload ++ p.2 else p.2)
    else ([], [])
termination_by buf.length
decreasing_by
  simp only [List.length_drop]
  omega

/-- The whitespace bytes JS `String.trim` removes from ASCII output. -/
def isJsWhitespace (b : Nat) : Bool :=
  b == 9 || b == 10 || b == 11 || b == 12 || b == 13 || b == 32

/-- `String.prototype.trim` at byte level. -/
def trimBytes (l : List Nat) : List Nat :=
  ((l.dropWhile isJsWhitespace).reverse.dropWhile isJsWhitespace).reverse

/-- `ExecResult` (types.ts), strings as byte lists. -/
structure ExecResult where
  stdout : List Nat
  stderr : List Nat
  exitCode : Int
  deriving DecidableEq, Repr

/-- The resolution path of `execInContainer` (container.ts, lines
122-155): concatenate the chunks, demultiplex, trim both strings, and
take the exit code from `exec.inspect()` (`info.ExitCode ?? 0`). -/
def execInContainer (buf : List Nat) (inspectExitCode : Option Int) : ExecResult :=
  let p := demuxStream buf
  ⟨trimBytes p.1, trimBytes p.2, inspectExitCode.getD 0⟩

/-- An engine frame: 8-byte header (tag, three padding bytes, big-endian
length) followed by the payload. -/
def mkFrame (tag : Nat) (payload : List Nat) : List Nat :=
  [tag, 0, 0, 0] ++ u32be payload.length ++ payload

/-- A wire stream made of whole frames. -/
def encodeFrames (frames : List (Nat × List Nat)) : List Nat :=
  frames.foldr (fun f acc => mkFrame f.1 f.2 ++ acc) []

/-- Concatenation of the tag-1 payloads. -/
def stdoutConcat (frames : List (Nat × List Nat)) : List Nat :=
  frames.foldr (fun f acc => (if f.1 = 1 then f.2 else []) ++ acc) []

/-- Concatenation of the tag-2 payloads. -/
def stderrConcat (frames : List (Nat × List Nat)) : List Nat :=
  frames.foldr (fun f acc => (if f.1 = 2 then f.2 else []) ++ acc) []

/-- A short or truncated trailing chunk: fewer than 8 header bytes, or a
header whose announced payload overruns the remaining bytes. -/
def truncatedTail (tail : List Nat) : Prop :=
  tail.length < 8 + readU32BE (tail.drop 4)

/-! ## writeToContainer path safety (container.ts, lines 166-183) -/

/-- Membership in the regex character class `[a-zA-Z0-9/_.\-]`
(container.ts, line 167). -/
def isSafePathChar (c : Char) : Bool :=
  (97 ≤ c.toNat && c.toNat ≤ 122) || (65 ≤ c.toNat && c.toNat ≤ 90) ||
    (48 ≤ c.toNat && c.toNat ≤ 57) || c == '/' || c == '_' || c == '.' || c == '-'

/-- `/^[a-zA-Z0-9\/_.\-]+$/.test(filePath)`: non-empty and every character
in the class (the JS regex is unanchored-multiline-free, so `^`/`$` are
the string ends). -/
def testSafeFilePath (p : List Char) : Bool :=
  !p.isEmpty && p.all isSafePathChar

/-- `assertSafeFilePath` (container.ts, lines 166-170). -/
def assertSafeFilePath (p : List Char) : Except String Unit :=
  if testSafeFilePath p then .ok () else .error ("Unsafe file path: " ++ String.mk p)

/-- `writeToContainer(container, filePath, content)` (container.ts, lines
175-183): check the path, then pipe the base64 rendering of the content
(passed in here as `b64`) through `base64 -d` into the path via one
`execInContainer` call.  The check throws before any exec is attempted. -/
def writeToContainer (ref : String) (p : List Char) (b64 : String) :
    Except String Unit × List ContainerOp :=
  match assertSafeFilePath p with
  | .error e => (.error e, [])
  | .ok _ =>
    (.ok (), [.execOp ref
      ("echo " ++ squote ++ b64 ++ squote ++ " | base64 -d > " ++ String.mk p) none])

/-! ## acquire (config.ts, lines 159-207) -/

/-- `ACQUIRE_RETRY_INTERVAL_MS` (config.ts, line 88). -/
def ACQUIRE_RETRY_INTERVAL_MS : Nat := 2000

/-- `ACQUIRE_MAX_RETRIES` (config.ts, line 89). -/
def ACQUIRE_MAX_RETRIES : Nat := 3

/-- The manager booleans consulted by `acquire`. -/
structure ManagerFlags where
  initialized : Bool
  shutdownRequested : Bool
  deriving DecidableEq, Repr

/-- The fresh ids and engine outcomes a `createTrackedSandbox` call from
one acquire attempt would use. -/
structure CreateEnv where
  id1 : String
  id2 : String
  o1 : AttemptOutcome
  o2 : AttemptOutcome
  deriving DecidableEq, Repr

/-- What one acquire attempt produced: a handle (its sandbox id and the
updated pool), or a propagating creation error. -/
inductive AcquireStepResult where
  | got (id : String) (pool : PoolState)
  | createThrew (e : CreateError)
  deriving DecidableEq, Repr

/-- The overall result of `acquire`: rejected by the shutdown guard
(`SandboxUnavailable("shutdown in progress")`), a handle (with total
milliseconds slept in retries before obtaining it), a propagating
creation error, or `PoolExhausted(maxTotal)`. -/
inductive AcquireResult where
  | unavailable
  | acquired (id : String) (pool : PoolState) (sleptMs : Nat)
  | createFailed (e : CreateError) (sleptMs : Nat)
  | exhausted (maxTotal : Nat) (sleptMs : Nat)
  deriving DecidableEq, Repr

/-- The ready-queue drain loop (config.ts, lines 164-173 and 187-196):
shift ids off the queue; for the first id whose record is still present
and in `Ready`, transition it to `Executing` (table-legal:
`transition .Ready .Executing = .ok _` by `rfl`), stamp `sessionId` and
`lastUsedAt`, and return a handle; stale ids are dropped.  `none` means
the queue was consumed without a usable sandbox. -/
def drainReadyGo (sandboxes : List TrackedSandbox) (sid : Option String) (now : Nat) :
    List String → Option (String × PoolState)
  | [] => none
  | id :: rest =>
    match findSandbox sandboxes id with
    | some t =>
      if t.state = .Ready then
        some (id, ⟨setSandbox sandboxes
          { t with state := .Executing, sessionId := sid, lastUsedAt := now }, rest⟩)
      else drainReadyGo sandboxes sid now rest
    | none => drainReadyGo sandboxes sid now rest

/-- The drain loop applied to the manager's queue. -/
def drainReady (st : PoolState) (sid : Option String) (now : Nat) :
    Option (String × PoolState) :=
  drainReadyGo st.sandboxes sid now st.readyQueue

/-- One acquire attempt, steps 1-2 (config.ts, lines 163-180 and 186-203):
drain the ready queue; failing that, if the map size is strictly below
`maxTotal`, create a fresh sandbox (which arrives `Ready`) and transition
it to `Executing`.  `none` means the attempt found no warm sandbox and the
pool was full. -/
def attemptAcquire (cfg : SandboxConfig) (st : PoolState) (sid : Option String)
    (now : Nat) (env : CreateEnv) : Option AcquireStepResult :=
  match drainReady st sid now with
  | some (id, st') => some (.got id st')
  | none =>
    -- the failed drain consumed the whole queue
    let st0 : PoolState := ⟨st.sandboxes, []⟩
    if st0.sandboxes.length < cfg.pool.maxTotal then
      let r := createTrackedSandbox st0 env.id1 env.id2 sid now env.o1 env.o2
      match r.outcome with
      | .ok cid =>
        match findSandbox r.pool.sandboxes cid with
        | some t =>
          some (.got cid ⟨setSandbox r.pool.sandboxes { t with state := .Executing },
            r.pool.readyQueue⟩)
        | none =>
          -- unreachable: the sandbox `createTrackedSandbox` returns is in the map
          some (.createThrew (.sandboxUnavailable .success))
      | .error e => some (.createThrew e)
    else none

/-- The spec-side reading of step 1: the first id in the queue whose
record is still present and in `Ready`. -/
def firstReadyInQueue (sandboxes : List TrackedSandbox) : List String → Option String
  | [] => none
  | id :: rest =>
    match findSandbox sandboxes id with
    | some t => if t.state = .Ready then some id else firstReadyInQueue sandboxes rest
    | none => firstReadyInQueue sandboxes rest

/-- The attempt/sleep loop of `acquire`: try, and while attempts remain,
sleep `ACQUIRE_RETRY_INTERVAL_MS` and try again on the pool state the
oracle `states` gives for that attempt (other tasks run during the
sleeps); after the last failed attempt throw `PoolExhausted(maxTotal)`.
`idx` counts attempts already made, so an attempt that succeeds at index
`idx` has slept `idx * ACQUIRE_RETRY_INTERVAL_MS` in total. -/
def acquireLoop (cfg : SandboxConfig) (states : Nat → PoolState)
    (envs : Nat → CreateEnv) (sid : Option String) (now : Nat) :
    Nat → Nat → AcquireResult
  | _idx, 0 =>
    .exhausted cfg.pool.maxTotal (ACQUIRE_MAX_RETRIES * ACQUIRE_RETRY_INTERVAL_MS)
  | idx, remaining + 1 =>
    match attemptAcquire cfg (states idx) sid now (envs idx) with
    | some (.got id st) => .acquired id st (idx * ACQUIRE_RETRY_INTERVAL_MS)
    | some (.createThrew e) => .createFailed e (idx * ACQUIRE_RETRY_INTERVAL_MS)
    | none => acquireLoop cfg states envs sid now (idx + 1) remaining

/-- `acquire(sessionId?)` (config.ts, lines 159-207).  The first component
records whether the lazy `initialize()` ran (it does exactly when the
manager was not yet initialized; the pool state the first attempt sees,
`states 0`, is the post-initialization state).  After that guard, a
`shutdownRequested` manager rejects with `SandboxUnavailable`; otherwise
the attempt loop runs `1 + ACQUIRE_MAX_RETRIES` times. -/
def acquire (cfg : SandboxConfig) (flags : ManagerFlags) (states : Nat → PoolState)
    (envs : Nat → CreateEnv) (sid : Option String) (now : Nat) :
    Bool × AcquireResult :=
  (!flags.initialized,
   if flags.shutdownRequested then .unavailable
   else acquireLoop cfg states envs sid now 0 (1 + ACQUIRE_MAX_RETRIES))

/-! # Theorems -/

/-- C1: `canTransition` agrees with the spec's transition table on every
pair of states, and `transition` returns `to` on exactly the allowed pairs
and fails with `InvalidTransition(from, to)` on every other pair. -/
theorem C1_transition_table :
    ∀ f t : SandboxState,
      canTransition f t = specAllowed f t ∧
      transition f t =
        (if specAllowed f t then Except.ok t else Except.error ⟨f, t⟩) := by
  decide

/-! ## Map helper lemmas -/

theorem findSandbox_setSandbox_self (l : List TrackedSandbox) (t : TrackedSandbox) :
    findSandbox (setSandbox l t) t.id = some t := by
  induction l with
  | nil => simp [findSandbox, setSandbox]
  | cons h r ih =>
    by_cases hh : h.id == t.id
    · simp [setSandbox, hh, findSandbox]
    · simp only [setSandbox, hh, if_false, Bool.false_eq_true]
      simpa [findSandbox, List.find?_cons, hh] using ih

theorem findSandbox_removeSandbox_self (l : List TrackedSandbox) (id : String) :
    findSandbox (removeSandbox l id) id = none := by
  simp only [findSandbox, removeSandbox, List.find?_eq_none, List.mem_filter]
  intro x hx
  simpa using hx.2

theorem findSandbox_eq_some_id {l : List TrackedSandbox} {id : String}
    {t : TrackedSandbox} (h : findSandbox l id = some t) : t.id = id := by
  have := List.find?_some h
  simpa using this

theorem setSandbox_fresh (l : List TrackedSandbox) (t : TrackedSandbox)
    (h : findSandbox l t.id = none) : setSandbox l t = l ++ [t] := by
  induction l with
  | nil => rfl
  | cons a r ih =>
    simp only [findSandbox, List.find?_eq_none, List.mem_cons] at h
    have ha : (a.id == t.id) = false := by simpa using h a (Or.inl rfl)
    have hr : findSandbox r t.id = none := by
      simp only [findSandbox, List.find?_eq_none]
      exact fun x hx => h x (Or.inr hx)
    simp [setSandbox, ha, ih hr]

theorem setSandbox_append_same (l : List TrackedSandbox) (t t' : TrackedSandbox)
    (h : findSandbox l t.id = none) (h2 : t'.id = t.id) :
    setSandbox (l ++ [t]) t' = l ++ [t'] := by
  induction l with
  | nil => simp [setSandbox, h2]
  | cons a r ih =>
    simp only [findSandbox, List.find?_eq_none, List.mem_cons] at h
    have ha : (a.id == t'.id) = false := by
      have := h a (Or.inl rfl)
      simp only [h2]
      simpa using this
    have hr : findSandbox r t.id = none := by
      simp only [findSandbox, List.find?_eq_none]
      exact fun x hx => h x (Or.inr hx)
    simp [setSandbox, ha, ih hr]

theorem removeSandbox_append (l : List TrackedSandbox) (t : TrackedSandbox)
    (h : findSandbox l t.id = none) : removeSandbox (l ++ [t]) t.id = l := by
  rw [removeSandbox, List.filter_append]
  have h1 : l.filter (fun x => x.id != t.id) = l := by
    rw [List.filter_eq_self]
    intro x hx
    simp only [findSandbox, List.find?_eq_none] at h
    simpa using h x hx
  have h2 : [t].filter (fun x => x.id != t.id) = [] := by simp
  rw [h1, h2, List.append_nil]

theorem findSandbox_append_none (l : List TrackedSandbox) (t : TrackedSandbox)
    (id : String) (h : findSandbox l id = none) (h2 : t.id ≠ id) :
    findSandbox (l ++ [t]) id = none := by
  simp only [findSandbox, List.find?_append] at *
  simp [h, h2]

theorem findSandbox_append_some (l : List TrackedSandbox) (t : TrackedSandbox)
    (h : findSandbox l t.id = none) : findSandbox (l ++ [t]) t.id = some t := by
  simp only [findSandbox, List.find?_append] at *
  simp [h]

/-! ## Creation-path shape lemmas -/

theorem sandboxCreateAttempt_eq (st : PoolState) (id : String) (sid : Option String)
    (now : Nat) (o : AttemptOutcome) (h : findSandbox st.sandboxes id = none) :
    sandboxCreateAttempt st id sid now o =
      ⟨⟨st.sandboxes ++ [attemptRecord id sid now o], st.readyQueue⟩,
        attemptEvents id o, attemptOps id o, attemptOutcomeOf id o⟩ := by
  have e1 := setSandbox_fresh st.sandboxes ⟨id, false, .Creating, now, now, 0, sid⟩ h
  cases o with
  | createFail =>
    simp [sandboxCreateAttempt, attemptRecord, attemptEvents, attemptOps,
      attemptOutcomeOf, e1]
  | startFail =>
    have e2 := setSandbox_append_same st.sandboxes ⟨id, false, .Creating, now, now, 0, sid⟩
      ⟨id, true, .Initializing, now, now, 0, sid⟩ h rfl
    simp [sandboxCreateAttempt, attemptRecord, attemptEvents, attemptOps,
      attemptOutcomeOf, e1, e2]
  | initFail =>
    have e2 := setSandbox_append_same st.sandboxes ⟨id, false, .Creating, now, now, 0, sid⟩
      ⟨id, true, .Initializing, now, now, 0, sid⟩ h rfl
    simp [sandboxCreateAttempt, attemptRecord, attemptEvents, attemptOps,
      attemptOutcomeOf, e1, e2]
  | success =>
    have e2 := setSandbox_append_same st.sandboxes ⟨id, false, .Creating, now, now, 0, sid⟩
      ⟨id, true, .Ready, now, now, 0, sid⟩ h rfl
    simp [sandboxCreateAttempt, attemptRecord, attemptEvents, attemptOps,
      attemptOutcomeOf, e1, e2]

theorem createTrackedSandbox_retryPath (st : PoolState) (id1 id2 : String)
    (sid : Option String) (now : Nat) (o1 o2 : AttemptOutcome)
    (h1 : findSandbox st.sandboxes id1 = none)
    (h2 : findSandbox st.sandboxes id2 = none)
    (ho1 : o1 ≠ .success) :
    createTrackedSandbox st id1 id2 sid now o1 o2 =
      ⟨⟨st.sandboxes ++ [attemptRecord id2 sid now o2], st.readyQueue⟩,
        (.created id1 :: attemptEvents id1 o1) ++ [.errorEvent id1] ++ attemptEvents id2 o2,
        attemptOps id1 o1 ++ cleanupOpsOf id1 o1 ++ attemptOps id2 o2,
        retryOutcomeOf id2 o2⟩ := by
  have hA1 := sandboxCreateAttempt_eq st id1 sid now o1 h1
  have hid1 : (attemptRecord id1 sid now o1).id = id1 := by cases o1 <;> rfl
  have hrm : removeSandbox (st.sandboxes ++ [attemptRecord id1 sid now o1]) id1 =
      st.sandboxes := by
    have := removeSandbox_append st.sandboxes (attemptRecord id1 sid now o1)
      (by rw [hid1]; exact h1)
    rwa [hid1] at this
  have hA2 := sandboxCreateAttempt_eq ⟨st.sandboxes, st.readyQueue⟩ id2 sid now o2 h2
  unfold createTrackedSandbox createTrackedSandboxRetry
  rw [hA1]
  cases o1 with
  | success => exact absurd rfl ho1
  | createFail =>
    cases o2 <;>
      simp [attemptOutcomeOf, cleanupOpsOf, retryOutcomeOf, hrm, hA2]
  | startFail =>
    cases o2 <;>
      simp [attemptOutcomeOf, cleanupOpsOf, retryOutcomeOf, hrm, hA2]
  | initFail =>
    cases o2 <;>
      simp [attemptOutcomeOf, cleanupOpsOf, retryOutcomeOf, hrm, hA2]

theorem createTrackedSandbox_events (st : PoolState) (id1 id2 : String)
    (sid : Option String) (now : Nat) (o1 o2 : AttemptOutcome) :
    (createTrackedSandbox st id1 id2 sid now o1 o2).events =
      if o1 = .success then .created id1 :: attemptEvents id1 .success
      else (.created id1 :: attemptEvents id1 o1) ++ [.errorEvent id1]
        ++ attemptEvents id2 o2 := by
  cases o1 <;> cases o2 <;>
    simp [createTrackedSandbox, createTrackedSandboxRetry, sandboxCreateAttempt,
      attemptEvents]

/-- C4 counterexample: with a tracked sandbox `"a"` in state `Ready`, if the
raw `container.stop` call rejects with status 500 (an error `stopContainer`
does not absorb), `destroySandbox` never invokes `removeContainer`: the op
trace contains the stop call but no remove call, refuting the claim that
both calls are always invoked. -/
theorem C4_destroy_counterexample :
    ContainerOp.stopOp "a" ∈
        (destroySandbox ⟨[⟨"a", true, .Ready, 0, 0, 0, none⟩], ["a"]⟩
          "a" "teardown" (.errStatus (some 500)) .ok).ops ∧
      ContainerOp.removeOp "a" ∉
        (destroySandbox ⟨[⟨"a", true, .Ready, 0, 0, 0, none⟩], ["a"]⟩
          "a" "teardown" (.errStatus (some 500)) .ok).ops := by
  decide

/-- C4 (amended): for every tracked sandbox not already `Destroyed`,
`destroySandbox(id, reason)` sets the record's state directly to
`Destroyed` (bypassing the transition table, no state-change event), then
invokes `stopContainer`; `removeContainer` is invoked exactly when
`stopContainer` did not throw.  Errors from either are logged but
absorbed, so the call itself never fails; the id's entry is removed from
the pool map, every occurrence of the id is removed from the ready queue,
and exactly one `destroyed` event carrying the supplied reason is
emitted. -/
theorem C4_destroy :
    ∀ (st : PoolState) (id reason : String) (stopO removeO : DockerOutcome)
      (t : TrackedSandbox),
      findSandbox st.sandboxes id = some t →
      t.state ≠ .Destroyed →
      findSandbox (destroySandbox st id reason stopO removeO).poolDuring.sandboxes id =
          some { t with state := .Destroyed } ∧
        (destroySandbox st id reason stopO removeO).ops.head? =
          some (.stopOp id) ∧
        (ContainerOp.removeOp id ∈ (destroySandbox st id reason stopO removeO).ops ↔
          stopContainer stopO = .ok ()) ∧
        findSandbox (destroySandbox st id reason stopO removeO).pool.sandboxes id = none ∧
        (destroySandbox st id reason stopO removeO).pool.readyQueue =
          st.readyQueue.filter (fun i => i != id) ∧
        (destroySandbox st id reason stopO removeO).events =
          [.destroyed id reason] := by
  intro st id reason stopO removeO t hfind hnd
  have hid : t.id = id := findSandbox_eq_some_id hfind
  have hmid :
      findSandbox (setSandbox st.sandboxes { t with state := .Destroyed }) id =
        some { t with state := .Destroyed } := by
    have := findSandbox_setSandbox_self st.sandboxes { t with state := .Destroyed }
    simpa [hid] using this
  have hrem :
      findSandbox (removeSandbox (setSandbox st.sandboxes { t with state := .Destroyed }) id)
        id = none := findSandbox_removeSandbox_self _ id
  cases stopO with
  | ok =>
    cases removeO with
    | ok => simp [destroySandbox, hfind, hnd, stopContainer, removeContainer, hmid, hrem]
    | errStatus c =>
      by_cases hc : c = some 404 <;>
        simp [destroySandbox, hfind, hnd, stopContainer, removeContainer, hc, hmid, hrem]
  | errStatus c =>
    by_cases hc : c = some 304 <;>
      [skip; skip] <;>
      cases removeO with
      | ok => simp [destroySandbox, hfind, hnd, stopContainer, removeContainer, hc, hmid, hrem]
      | errStatus c2 =>
        by_cases hc2 : c2 = some 404 <;>
          simp [destroySandbox, hfind, hnd, stopContainer, removeContainer, hc, hc2, hmid, hrem]

/-- Witness for the amended C4 theorem at a concrete pool: destroying the
`Ready` sandbox `"a"` removes its map entry. -/
theorem C4_destroy_witness :
    findSandbox (destroySandbox ⟨[⟨"a", true, .Ready, 0, 0, 0, none⟩], ["a", "b"]⟩
        "a" "shutdown" .ok .ok).pool.sandboxes "a" = none :=
  (C4_destroy ⟨[⟨"a", true, .Ready, 0, 0, 0, none⟩], ["a", "b"]⟩
    "a" "shutdown" .ok .ok ⟨"a", true, .Ready, 0, 0, 0, none⟩ rfl
    (by decide)).2.2.2.1

/-- C3 counterexample: starting from an empty pool, when both the first
creation attempt and the retry fail (`startContainer` rejects both times),
`createTrackedSandbox` does raise `SandboxUnavailable` with the retry's
cause — but the retry attempt's entry (id `"b"`, left in `Initializing`)
remains in the pool map, refuting "no entry for either attempt remains in
the pool map". -/
theorem C3_create_counterexample :
    (createTrackedSandbox ⟨[], []⟩ "a" "b" none 0 .startFail .startFail).outcome =
        .error (.sandboxUnavailable .startFail) ∧
      findSandbox
        (createTrackedSandbox ⟨[], []⟩ "a" "b" none 0 .startFail .startFail).pool.sandboxes
        "b" ≠ none := by
  decide

/-- C3 (amended): when the first creation attempt fails, the manager
performs a best-effort `removeContainer` exactly when that attempt had got
past `createContainer`, deletes the first attempt's pool-map entry, emits
an `error` event, and retries the entire sequence exactly once with a new
id; if the retry succeeds its sandbox is returned; if the retry also
fails, the operation raises `SandboxUnavailable` carrying the retry's
cause, the first attempt's entry does not remain in the pool map, but the
retry attempt's entry does remain. -/
theorem C3_create :
    ∀ (st : PoolState) (id1 id2 : String) (sid : Option String) (now : Nat)
      (o1 o2 : AttemptOutcome),
      findSandbox st.sandboxes id1 = none →
      findSandbox st.sandboxes id2 = none →
      id1 ≠ id2 → o1 ≠ .success →
      (ContainerOp.removeOp id1 ∈ (createTrackedSandbox st id1 id2 sid now o1 o2).ops ↔
          o1 ≠ .createFail) ∧
        findSandbox (createTrackedSandbox st id1 id2 sid now o1 o2).pool.sandboxes id1 =
          none ∧
        SandboxEvent.errorEvent id1 ∈ (createTrackedSandbox st id1 id2 sid now o1 o2).events ∧
        (o2 = .success →
          (createTrackedSandbox st id1 id2 sid now o1 o2).outcome = .ok id2) ∧
        (o2 ≠ .success →
          (createTrackedSandbox st id1 id2 sid now o1 o2).outcome =
              .error (.sandboxUnavailable o2) ∧
            findSandbox (createTrackedSandbox st id1 id2 sid now o1 o2).pool.sandboxes id2 =
              some (attemptRecord id2 sid now o2)) := by
  intro st id1 id2 sid now o1 o2 h1 h2 hne ho1
  rw [createTrackedSandbox_retryPath st id1 id2 sid now o1 o2 h1 h2 ho1]
  have hid2 : (attemptRecord id2 sid now o2).id = id2 := by cases o2 <;> rfl
  refine ⟨?_, ?_, ?_, ?_, ?_⟩
  · cases o1 <;> cases o2 <;> simp [attemptOps, cleanupOpsOf]
  · exact findSandbox_append_none _ _ _ h1 (by rw [hid2]; exact fun hh => hne hh.symm)
  · simp
  · intro ho2; subst ho2; simp [retryOutcomeOf]
  · intro ho2
    constructor
    · cases o2 <;> simp_all [retryOutcomeOf]
    · have := findSandbox_append_some st.sandboxes (attemptRecord id2 sid now o2)
        (by rw [hid2]; exact h2)
      rwa [hid2] at this

/-- Witness for the amended C3 theorem: from an empty pool, a
`startContainer` failure followed by an `initContainerPython` failure on
the retry makes the operation raise `SandboxUnavailable` with the retry's
cause. -/
theorem C3_create_witness :
    (createTrackedSandbox ⟨[], []⟩ "a" "b" none 0 .startFail .initFail).outcome =
        .error (.sandboxUnavailable .initFail) :=
  ((C3_create ⟨[], []⟩ "a" "b" none 0 .startFail .initFail rfl rfl (by decide)
      (by decide)).2.2.2.2 (by decide)).1

/-- C5 counterexample: when the first attempt fails and the retry succeeds,
sandbox `"b"` is inserted into the pool map by the retry path and emits
state-change events, but zero `created` events — refuting "exactly one
created event for its id" for sandboxes created on the retry path. -/
theorem C5_events_counterexample :
    findSandbox
        (createTrackedSandbox ⟨[], []⟩ "a" "b" none 0 .startFail .success).pool.sandboxes
        "b" ≠ none ∧
      (createTrackedSandbox ⟨[], []⟩ "a" "b" none 0 .startFail .success).events.count
          (.created "b") = 0 ∧
      SandboxEvent.stateChange "b" .Creating .Initializing ∈
        (createTrackedSandbox ⟨[], []⟩ "a" "b" none 0 .startFail .success).events := by
  decide

/-- C5 (amended): during fresh-sandbox creation the manager emits exactly
one `created` event for the primary attempt's id, and it precedes every
other event of the operation (in particular every state-change for that
id); a sandbox inserted by the internal create-retry path gets zero
`created` events; and the creation path emits no `destroyed` events (so
"at most one destroyed, coming last" is preserved vacuously here). -/
theorem C5_created_events :
    ∀ (st : PoolState) (id1 id2 : String) (sid : Option String) (now : Nat)
      (o1 o2 : AttemptOutcome),
      id1 ≠ id2 →
      (createTrackedSandbox st id1 id2 sid now o1 o2).events.count (.created id1) = 1 ∧
        (createTrackedSandbox st id1 id2 sid now o1 o2).events.head? =
          some (.created id1) ∧
        (createTrackedSandbox st id1 id2 sid now o1 o2).events.count (.created id2) = 0 ∧
        (createTrackedSandbox st id1 id2 sid now o1 o2).events.all
          (fun e => !isDestroyedEvent e) = true := by
  intro st id1 id2 sid now o1 o2 hne
  rw [createTrackedSandbox_events]
  cases o1 <;> cases o2 <;>
    simp [attemptEvents, isDestroyedEvent, List.count_cons, List.count_append, hne,
      Ne.symm hne]

/-- Witness for the amended C5 theorem at concrete inputs: the primary id
`"x"` gets exactly one `created` event. -/
theorem C5_created_events_witness :
    (createTrackedSandbox ⟨[], []⟩ "x" "y" none 0 .initFail .success).events.count
        (.created "x") = 1 :=
  (C5_created_events ⟨[], []⟩ "x" "y" none 0 .initFail .success (by decide)).1

/-! ## release lemmas -/

theorem setSandbox_setSandbox (l : List TrackedSandbox) (t t' : TrackedSandbox)
    (h : t'.id = t.id) : setSandbox (setSandbox l t) t' = setSandbox l t' := by
  induction l with
  | nil => simp [setSandbox, h]
  | cons a r ih =>
    by_cases ha : (a.id == t.id) = true
    · simp [setSandbox, ha, h]
    · simp [setSandbox, ha, h, ih]

theorem release_executing_eq (cfg : SandboxConfig) (st : PoolState) (id : String)
    (now : Nat) (t : TrackedSandbox) (hf : findSandbox st.sandboxes id = some t)
    (hex : t.state = .Executing) :
    release cfg st id now =
      (if readyCountOf (setSandbox st.sandboxes
            { t with state := .Idle, sessionId := none, lastUsedAt := now }) <
          cfg.pool.minWarm
       then ⟨⟨setSandbox st.sandboxes
                { t with state := .Ready, sessionId := none, lastUsedAt := now },
              st.readyQueue ++ [id]⟩,
             [.stateChange id .Executing .Idle, .stateChange id .Idle .Ready], none⟩
       else ⟨⟨setSandbox st.sandboxes
                { t with state := .Idle, sessionId := none, lastUsedAt := now },
              st.readyQueue⟩,
             [.stateChange id .Executing .Idle], none⟩) := by
  have hset := setSandbox_setSandbox st.sandboxes
    ({ t with state := .Idle, sessionId := none, lastUsedAt := now })
    ({ t with state := .Ready, sessionId := none, lastUsedAt := now }) rfl
  simp only [release, hf, hex]
  by_cases hc : readyCountOf (setSandbox st.sandboxes
      { t with state := .Idle, sessionId := none, lastUsedAt := now }) < cfg.pool.minWarm <;>
    simp [transition, VALID_TRANSITIONS, hc, hset]

/-- C6: for a tracked sandbox in state `Executing`, `release(id)`
transitions it `Executing → Idle`, clears `sessionId`, stamps `lastUsedAt`
with the current time, and — exactly when the count of `Ready` sandboxes
(after the record went `Idle`) is strictly below `minWarm` — transitions
it further `Idle → Ready` and appends its id to the tail of the ready
queue; otherwise it stays `Idle` and the queue is unchanged.  `release` of
an id not in the pool map returns without any effect. -/
theorem C6_release :
    ∀ (cfg : SandboxConfig) (st : PoolState) (id : String) (now : Nat),
      (findSandbox st.sandboxes id = none → release cfg st id now = ⟨st, [], none⟩) ∧
      (∀ t, findSandbox st.sandboxes id = some t → t.state = .Executing →
        (release cfg st id now).thrown = none ∧
        (if readyCountOf (setSandbox st.sandboxes
              { t with state := .Idle, sessionId := none, lastUsedAt := now }) <
            cfg.pool.minWarm
         then
          findSandbox (release cfg st id now).pool.sandboxes id =
              some { t with state := .Ready, sessionId := none, lastUsedAt := now } ∧
            (release cfg st id now).pool.readyQueue = st.readyQueue ++ [id]
         else
          findSandbox (release cfg st id now).pool.sandboxes id =
              some { t with state := .Idle, sessionId := none, lastUsedAt := now } ∧
            (release cfg st id now).pool.readyQueue = st.readyQueue)) := by
  intro cfg st id now
  constructor
  · intro h; simp [release, h]
  · intro t hf hex
    have hid : t.id = id := findSandbox_eq_some_id hf
    subst hid
    rw [release_executing_eq cfg st t.id now t hf hex]
    by_cases hc : readyCountOf (setSandbox st.sandboxes
        { t with state := .Idle, sessionId := none, lastUsedAt := now }) < cfg.pool.minWarm <;>
      simp [hc, findSandbox_setSandbox_self]

/-- Witness for C6 at a concrete pool: with `minWarm = 1` and a single
`Executing` sandbox, `release` returns without throwing. -/
theorem C6_release_witness :
    (release ⟨⟨1, 5, 300000⟩, ⟨30000, 3⟩⟩
        ⟨[⟨"a", true, .Executing, 0, 0, 0, some "s"⟩], []⟩ "a" 7).thrown = none :=
  ((C6_release ⟨⟨1, 5, 300000⟩, ⟨30000, 3⟩⟩
      ⟨[⟨"a", true, .Executing, 0, 0, 0, some "s"⟩], []⟩ "a" 7).2
    ⟨"a", true, .Executing, 0, 0, 0, some "s"⟩ rfl rfl).1

/-- C10: for a tracked sandbox whose state is not `Executing`, `release`
throws `InvalidTransition(state, Idle)` and leaves everything unchanged
(pool map, record, ready queue; no events); consequently a second
`release` right after a successful one always throws, in contrast with
the silent no-op on unknown ids. -/
theorem C10_release_invalid :
    ∀ (cfg : SandboxConfig) (st : PoolState) (id : String) (now : Nat)
      (t : TrackedSandbox), findSandbox st.sandboxes id = some t →
      (t.state ≠ .Executing →
        release cfg st id now = ⟨st, [], some ⟨t.state, .Idle⟩⟩) ∧
      (t.state = .Executing → ∀ now2 : Nat,
        (release cfg (release cfg st id now).pool id now2).thrown =
          some ⟨if readyCountOf (setSandbox st.sandboxes
                  { t with state := .Idle, sessionId := none, lastUsedAt := now }) <
                cfg.pool.minWarm
              then SandboxState.Ready else SandboxState.Idle, .Idle⟩) := by
  intro cfg st id now t hf
  constructor
  · intro hne
    have herr : transition t.state .Idle = .error ⟨t.state, .Idle⟩ := by
      cases h : t.state <;> simp_all [transition, VALID_TRANSITIONS]
    simp [release, hf, herr]
  · intro hex now2
    have hid : t.id = id := findSandbox_eq_some_id hf
    subst hid
    rw [release_executing_eq cfg st t.id now t hf hex]
    by_cases hc : readyCountOf (setSandbox st.sandboxes
        { t with state := .Idle, sessionId := none, lastUsedAt := now }) < cfg.pool.minWarm <;>
      simp [hc, release, findSandbox_setSandbox_self, transition, VALID_TRANSITIONS]

/-- Witness for C10: releasing an `Idle` sandbox throws
`InvalidTransition(Idle, Idle)` and changes nothing. -/
theorem C10_release_invalid_witness :
    release ⟨⟨0, 5, 300000⟩, ⟨30000, 3⟩⟩
        ⟨[⟨"a", true, .Idle, 0, 0, 0, none⟩], []⟩ "a" 9 =
      ⟨⟨[⟨"a", true, .Idle, 0, 0, 0, none⟩], []⟩, [], some ⟨.Idle, .Idle⟩⟩ :=
  ((C10_release_invalid ⟨⟨0, 5, 300000⟩, ⟨30000, 3⟩⟩
      ⟨[⟨"a", true, .Idle, 0, 0, 0, none⟩], []⟩ "a" 9
      ⟨"a", true, .Idle, 0, 0, 0, none⟩ rfl).1 (by decide))

/-! ## Health-check lemmas -/

theorem destroySandbox_shape (st : PoolState) (id reason : String)
    (stopO removeO : DockerOutcome) (t : TrackedSandbox)
    (hf : findSandbox st.sandboxes id = some t) (hnd : t.state ≠ .Destroyed) :
    destroySandbox st id reason stopO removeO =
      ⟨⟨removeSandbox (setSandbox st.sandboxes { t with state := .Destroyed }) id,
          st.readyQueue.filter (fun i => i != id)⟩,
        [.destroyed id reason], teardownOps id stopO,
        ⟨setSandbox st.sandboxes { t with state := .Destroyed }, st.readyQueue⟩,
        teardownLogged stopO removeO⟩ := by
  cases hs : stopContainer stopO with
  | error e => simp [destroySandbox, hf, hnd, teardownOps, teardownLogged, hs]
  | ok u =>
    cases hr : removeContainer removeO with
    | error e => simp [destroySandbox, hf, hnd, teardownOps, teardownLogged, hs, hr]
    | ok u2 => simp [destroySandbox, hf, hnd, teardownOps, teardownLogged, hs, hr]

theorem healthCheckOne_probed (cfg : SandboxConfig) (st : PoolState)
    (t : TrackedSandbox) (probe : ProbeOutcome) (stopO removeO : DockerOutcome) :
    (healthCheckOne cfg st t probe stopO removeO).probed = [t.id] := by
  simp only [healthCheckOne]
  split <;> rfl

theorem healthCheckOne_probeOp (cfg : SandboxConfig) (st : PoolState)
    (t : TrackedSandbox) (probe : ProbeOutcome) (stopO removeO : DockerOutcome) :
    ContainerOp.execOp t.id healthProbeCmd (some 5000) ∈
      (healthCheckOne cfg st t probe stopO removeO).ops := by
  simp only [healthCheckOne]
  split <;> simp

theorem healthGo_probed (cfg : SandboxConfig) (probes : String → ProbeOutcome)
    (stops removes : String → DockerOutcome) :
    ∀ (l : List TrackedSandbox) (st : PoolState),
      (healthGo cfg probes stops removes l st).probed = l.map (fun s => s.id) := by
  intro l
  induction l with
  | nil => intro st; rfl
  | cons t rest ih =>
    intro st
    simp [healthGo, healthCheckOne_probed, ih]

theorem healthGo_ops (cfg : SandboxConfig) (probes : String → ProbeOutcome)
    (stops removes : String → DockerOutcome) :
    ∀ (l : List TrackedSandbox) (st : PoolState) (pid : String),
      pid ∈ l.map (fun s => s.id) →
      ContainerOp.execOp pid healthProbeCmd (some 5000) ∈
        (healthGo cfg probes stops removes l st).ops := by
  intro l
  induction l with
  | nil => intro st pid h; simp at h
  | cons t rest ih =>
    intro st pid h
    simp only [List.map_cons, List.mem_cons] at h
    simp only [healthGo, List.mem_append]
    rcases h with h | h
    · subst h; exact Or.inl (healthCheckOne_probeOp ..)
    · exact Or.inr (ih _ pid h)

/-- C7: on a health-check tick, exactly the sandboxes in state `Ready` or
`Idle` are probed (in map order) with `python3 -c 'print(1)'` under a
5000 ms timeout; a probe resolving with exit code 0 resets that sandbox's
`healthFailures` to 0, and any other outcome — a non-zero exit code or a
thrown error, including a timeout — sets it to the old value plus one;
when the updated counter reaches `maxFailures`, the loop body emits
`health-check-failed` with the failure count, destroys the sandbox with
reason `health-check-failure` (its map entry disappears), and requests
one asynchronous warm replacement exactly when the `Ready` count after
the destroy is below `minWarm`. -/
theorem C7_health_check :
    ∀ (cfg : SandboxConfig) (st : PoolState) (probes : String → ProbeOutcome)
      (stops removes : String → DockerOutcome),
      (healthCheckLoop cfg st probes stops removes).probed =
        (st.sandboxes.filter
          (fun s => s.state == SandboxState.Ready || s.state == SandboxState.Idle)).map
          (fun s => s.id) ∧
      (∀ pid ∈ (healthCheckLoop cfg st probes stops removes).probed,
        ContainerOp.execOp pid healthProbeCmd (some 5000) ∈
          (healthCheckLoop cfg st probes stops removes).ops) ∧
      (∀ (st0 : PoolState) (t : TrackedSandbox) (probe : ProbeOutcome)
        (stopO removeO : DockerOutcome),
        findSandbox st0.sandboxes t.id = some t →
        (t.state = .Ready ∨ t.state = .Idle) →
        (probe = .exitCode 0 → 0 < cfg.healthCheck.maxFailures →
          (healthCheckOne cfg st0 t probe stopO removeO).pool.sandboxes =
              setSandbox st0.sandboxes { t with healthFailures := 0 } ∧
            (healthCheckOne cfg st0 t probe stopO removeO).events = [] ∧
            (healthCheckOne cfg st0 t probe stopO removeO).warmRequests = 0) ∧
        ((probe = .threw ∨ ∃ c, c ≠ 0 ∧ probe = .exitCode c) →
          (t.healthFailures + 1 < cfg.healthCheck.maxFailures →
            (healthCheckOne cfg st0 t probe stopO removeO).pool.sandboxes =
                setSandbox st0.sandboxes { t with healthFailures := t.healthFailures + 1 } ∧
              (healthCheckOne cfg st0 t probe stopO removeO).events = []) ∧
          (cfg.healthCheck.maxFailures ≤ t.healthFailures + 1 →
            findSandbox (healthCheckOne cfg st0 t probe stopO removeO).pool.sandboxes
                t.id = none ∧
              (healthCheckOne cfg st0 t probe stopO removeO).events =
                [.healthCheckFailed t.id (t.healthFailures + 1),
                  .destroyed t.id "health-check-failure"] ∧
              ((healthCheckOne cfg st0 t probe stopO removeO).warmRequests = 1 ↔
                readyCountOf
                    (healthCheckOne cfg st0 t probe stopO removeO).pool.sandboxes <
                  cfg.pool.minWarm)))) := by
  intro cfg st probes stops removes
  refine ⟨?_, ?_, ?_⟩
  · exact healthGo_probed cfg probes stops removes _ st
  · intro pid h
    rw [healthCheckLoop] at h ⊢
    rw [healthGo_probed] at h
    exact healthGo_ops cfg probes stops removes _ st pid h
  · intro st0 t probe stopO removeO hfind hri
    constructor
    · intro hp hmax
      subst hp
      have hhf : probeFailures t (.exitCode 0) = 0 := by simp [probeFailures]
      have hcond : ¬ cfg.healthCheck.maxFailures ≤ 0 := by omega
      simp only [healthCheckOne, hhf]
      rw [if_neg hcond]
      exact ⟨rfl, rfl, rfl⟩
    · intro hp
      have hhf : probeFailures t probe = t.healthFailures + 1 := by
        rcases hp with hp | ⟨c, hc, hp⟩
        · subst hp; rfl
        · subst hp; simp [probeFailures, hc]
      constructor
      · intro hlt
        have hcond : ¬ cfg.healthCheck.maxFailures ≤ t.healthFailures + 1 := by omega
        simp only [healthCheckOne, hhf]
        rw [if_neg hcond]
        exact ⟨rfl, rfl⟩
      · intro hge
        have ht1 :
            findSandbox (setSandbox st0.sandboxes
                { t with healthFailures := t.healthFailures + 1 }) t.id =
              some { t with healthFailures := t.healthFailures + 1 } :=
          findSandbox_setSandbox_self st0.sandboxes _
        have hnd : ({ t with healthFailures := t.healthFailures + 1 } :
            TrackedSandbox).state ≠ .Destroyed := by
          rcases hri with h | h <;> simp [h]
        have hd := destroySandbox_shape
          ⟨setSandbox st0.sandboxes { t with healthFailures := t.healthFailures + 1 },
            st0.readyQueue⟩
          t.id "health-check-failure" stopO removeO _ ht1 hnd
        simp only [healthCheckOne, hhf]
        rw [if_pos hge]
        simp only [hd]
        refine ⟨?_, by simp, ?_⟩
        · exact findSandbox_removeSandbox_self _ t.id
        · by_cases hw : readyCountOf
              (removeSandbox (setSandbox (setSandbox st0.sandboxes
                  { t with healthFailures := t.healthFailures + 1 })
                { t with healthFailures := t.healthFailures + 1, state := .Destroyed })
                t.id) < cfg.pool.minWarm <;>
            simp [hw]

/-- Witness for C7 at concrete inputs: with `maxFailures = 1`, a thrown
probe against the single `Idle` sandbox destroys it — the loop-body
events are `health-check-failed` then `destroyed`. -/
theorem C7_health_check_witness :
    (healthCheckOne ⟨⟨1, 5, 300000⟩, ⟨30000, 1⟩⟩
        ⟨[⟨"a", true, .Idle, 0, 0, 0, none⟩], []⟩
        ⟨"a", true, .Idle, 0, 0, 0, none⟩ .threw .ok .ok).events =
      [.healthCheckFailed "a" 1, .destroyed "a" "health-check-failure"] :=
  (((C7_health_check ⟨⟨1, 5, 300000⟩, ⟨30000, 1⟩⟩
        ⟨[⟨"a", true, .Idle, 0, 0, 0, none⟩], []⟩
        (fun _ => .threw) (fun _ => .ok) (fun _ => .ok)).2.2
      ⟨[⟨"a", true, .Idle, 0, 0, 0, none⟩], []⟩
      ⟨"a", true, .Idle, 0, 0, 0, none⟩ .threw .ok .ok rfl (Or.inr rfl)).2
    (Or.inl rfl)).2 (by decide) |>.2.1

/-! ## Stream-parsing lemmas -/

theorem readU32BE_u32be (n : Nat) (l : List Nat) (h : n < 2 ^ 32) :
    readU32BE (u32be n ++ l) = n := by
  simp [readU32BE, u32be]
  omega

theorem demuxStream_truncated (tail : List Nat) (ht : truncatedTail tail) :
    demuxStream tail = ([], []) := by
  unfold truncatedTail at ht
  by_cases h8 : tail.length < 8
  · rw [demuxStream]
    simp [h8]
  · have hov : ¬ readU32BE (tail.drop 4) ≤ tail.length - 8 := by omega
    rw [demuxStream]
    simp [h8, List.length_drop, hov]

theorem demuxStream_cons_frame (tag : Nat) (p rest : List Nat)
    (hp : p.length < 2 ^ 32) :
    demuxStream (mkFrame tag p ++ rest) =
      ((if tag = 1 then p ++ (demuxStream rest).1 else (demuxStream rest).1),
       (if tag = 2 then p ++ (demuxStream rest).2 else (demuxStream rest).2)) := by
  have hlen : (mkFrame tag p ++ rest).length = 8 + p.length + rest.length := by
    simp [mkFrame, u32be]
    omega
  have h8 : ¬ (mkFrame tag p ++ rest).length < 8 := by omega
  have hdrop4 : (mkFrame tag p ++ rest).drop 4 = u32be p.length ++ (p ++ rest) := by
    simp [mkFrame, u32be]
  have hhead : (mkFrame tag p ++ rest).headD 0 = tag := by
    simp [mkFrame]
  have hdrop8 : (mkFrame tag p ++ rest).drop 8 = p ++ rest := by
    simp [mkFrame, u32be]
  have hread : readU32BE ((mkFrame tag p ++ rest).drop 4) = p.length := by
    rw [hdrop4, readU32BE_u32be _ _ hp]
  rw [demuxStream]
  rw [dif_neg h8]
  simp only [hhead, hread, hdrop8]
  have hle : p.length ≤ (p ++ rest).length := by simp
  rw [dif_pos hle]
  simp [List.take_left, List.drop_left]

theorem demuxStream_frames (frames : List (Nat × List Nat)) (tail : List Nat)
    (h : ∀ f ∈ frames, f.2.length < 2 ^ 32) (ht : truncatedTail tail) :
    demuxStream (encodeFrames frames ++ tail) =
      (stdoutConcat frames, stderrConcat frames) := by
  induction frames with
  | nil =>
    simpa [encodeFrames, stdoutConcat, stderrConcat] using demuxStream_truncated tail ht
  | cons f fs ih =>
    have hf : f.2.length < 2 ^ 32 := h f (List.mem_cons_self f fs)
    have hfs : ∀ g ∈ fs, g.2.length < 2 ^ 32 := fun g hg => h g (List.mem_cons_of_mem f hg)
    have : encodeFrames (f :: fs) ++ tail = mkFrame f.1 f.2 ++ (encodeFrames fs ++ tail) := by
      simp [encodeFrames]
    rw [this, demuxStream_cons_frame f.1 f.2 _ hf, ih hfs]
    by_cases h1 : f.1 = 1 <;> by_cases h2 : f.1 = 2 <;>
      simp_all [stdoutConcat, stderrConcat]

/-- C8: the demultiplexer concatenates all tag-1 payloads as stdout and
all tag-2 payloads as stderr, stopping without error at a short or
truncated trailing frame; and for a command that writes `X` to stdout and
`Y` to stderr (each a single frame) and exits with code `c`,
`execInContainer` resolves `{stdout: trim X, stderr: trim Y, exitCode: c}`. -/
theorem C8_exec_stream :
    (∀ (frames : List (Nat × List Nat)) (tail : List Nat),
      (∀ f ∈ frames, f.2.length < 2 ^ 32) → truncatedTail tail →
      demuxStream (encodeFrames frames ++ tail) =
        (stdoutConcat frames, stderrConcat frames)) ∧
    (∀ (X Y : List Nat) (c : Int), X.length < 2 ^ 32 → Y.length < 2 ^ 32 →
      execInContainer (mkFrame 1 X ++ mkFrame 2 Y) (some c) =
        ⟨trimBytes X, trimBytes Y, c⟩) := by
  constructor
  · exact demuxStream_frames
  · intro X Y c hX hY
    have henc : mkFrame 1 X ++ mkFrame 2 Y = encodeFrames [(1, X), (2, Y)] ++ [] := by
      simp [encodeFrames]
    have hframes : ∀ f ∈ [((1 : Nat), X), ((2 : Nat), Y)], f.2.length < 2 ^ 32 := by
      intro f hf
      simp only [List.mem_cons, List.not_mem_nil, or_false] at hf
      rcases hf with rfl | rfl
      · exact hX
      · exact hY
    have ht : truncatedTail [] := by
      unfold truncatedTail
      simp [readU32BE]
    rw [execInContainer, henc, demuxStream_frames _ _ hframes ht]
    simp [stdoutConcat, stderrConcat]

/-- Witness for C8 at a concrete stream: one stdout frame `"hi\n"`, one
stderr frame `"w\n"`, exit code 0. -/
theorem C8_exec_stream_witness :
    execInContainer (mkFrame 1 [104, 105, 10] ++ mkFrame 2 [119, 10]) (some 0) =
      ⟨[104, 105], [119], 0⟩ :=
  C8_exec_stream.2 [104, 105, 10] [119, 10] 0 (by decide) (by decide)

/-- C9: `writeToContainer` fails fast with an unsafe-path error — before
any container exec is attempted (empty op trace) — exactly when the path
contains a character outside `[A-Za-z0-9/_.-]` (or is empty, since the
regex demands at least one character); every non-empty path made only of
class characters passes the check and performs the single write exec. -/
theorem C9_path_safety :
    ∀ (ref : String) (p : List Char) (b64 : String),
      ((∃ c ∈ p, isSafePathChar c = false) →
        writeToContainer ref p b64 =
          (.error ("Unsafe file path: " ++ String.mk p), [])) ∧
      (p ≠ [] → (∀ c ∈ p, isSafePathChar c = true) →
        writeToContainer ref p b64 =
          (.ok (), [.execOp ref
            ("echo " ++ squote ++ b64 ++ squote ++ " | base64 -d > " ++ String.mk p)
            none])) ∧
      (p = [] →
        writeToContainer ref p b64 =
          (.error ("Unsafe file path: " ++ String.mk p), [])) := by
  intro ref p b64
  refine ⟨?_, ?_, ?_⟩
  · rintro ⟨c, hc, hbad⟩
    have hfalse : testSafeFilePath p = false := by
      have : p.all isSafePathChar = false := by
        rw [List.all_eq_false]
        exact ⟨c, hc, by simp [hbad]⟩
      simp [testSafeFilePath, this]
    simp [writeToContainer, assertSafeFilePath, hfalse]
  · intro hne hall
    have htrue : testSafeFilePath p = true := by
      have hA : p.all isSafePathChar = true := List.all_eq_true.mpr hall
      simp [testSafeFilePath, hA, hne]
    simp [writeToContainer, assertSafeFilePath, htrue]
  · rintro rfl
    rfl

/-- Witness for C9: a path containing a space is rejected with no exec; a
plain absolute path passes and performs the base64 write. -/
theorem C9_path_safety_witness :
    writeToContainer "c1" ['a', ' '] "QQ==" =
        (.error ("Unsafe file path: " ++ String.mk ['a', ' ']), []) ∧
      writeToContainer "c1" ['/', 't', 'm', 'p', '/', 'a'] "QQ==" =
        (.ok (), [.execOp "c1"
          ("echo " ++ squote ++ "QQ==" ++ squote ++ " | base64 -d > " ++
            String.mk ['/', 't', 'm', 'p', '/', 'a']) none]) :=
  ⟨(C9_path_safety "c1" ['a', ' '] "QQ==").1 ⟨' ', by simp, by decide⟩,
   (C9_path_safety "c1" ['/', 't', 'm', 'p', '/', 'a'] "QQ==").2.1
     (by decide) (by decide)⟩

/-! ## acquire lemmas -/

theorem createTrackedSandbox_success (st : PoolState) (id1 id2 : String)
    (sid : Option String) (now : Nat) (o2 : AttemptOutcome)
    (h1 : findSandbox st.sandboxes id1 = none) :
    createTrackedSandbox st id1 id2 sid now .success o2 =
      ⟨⟨st.sandboxes ++ [attemptRecord id1 sid now .success], st.readyQueue⟩,
        .created id1 :: attemptEvents id1 .success, attemptOps id1 .success,
        .ok id1⟩ := by
  have hA1 := sandboxCreateAttempt_eq st id1 sid now .success h1
  unfold createTrackedSandbox
  rw [hA1]
  rfl

theorem drainReadyGo_none_iff (sandboxes : List TrackedSandbox)
    (sid : Option String) (now : Nat) :
    ∀ q, drainReadyGo sandboxes sid now q = none ↔
      firstReadyInQueue sandboxes q = none := by
  intro q
  induction q with
  | nil => simp [drainReadyGo, firstReadyInQueue]
  | cons id rest ih =>
    cases hf : findSandbox sandboxes id with
    | none => simp [drainReadyGo, firstReadyInQueue, hf, ih]
    | some t =>
      by_cases hr : t.state = .Ready <;>
        simp [drainReadyGo, firstReadyInQueue, hf, hr, ih]

theorem drainReadyGo_some (sandboxes : List TrackedSandbox)
    (sid : Option String) (now : Nat) :
    ∀ q id, firstReadyInQueue sandboxes q = some id →
      ∃ t suf, findSandbox sandboxes id = some t ∧ t.state = .Ready ∧
        drainReadyGo sandboxes sid now q =
          some (id, ⟨setSandbox sandboxes
            { t with state := .Executing, sessionId := sid, lastUsedAt := now },
            suf⟩) := by
  intro q
  induction q with
  | nil => intro id h; simp [firstReadyInQueue] at h
  | cons qid rest ih =>
    intro id h
    cases hf : findSandbox sandboxes qid with
    | none =>
      simp only [firstReadyInQueue, hf] at h
      obtain ⟨t, suf, h1, h2, h3⟩ := ih id h
      refine ⟨t, suf, h1, h2, ?_⟩
      simpa [drainReadyGo, hf] using h3
    | some t =>
      by_cases hr : t.state = .Ready
      · have hqid : qid = id := by simpa [firstReadyInQueue, hf, hr] using h
        subst hqid
        refine ⟨t, rest, hf, hr, ?_⟩
        simp [drainReadyGo, hf, hr]
      · simp only [firstReadyInQueue, hf] at h
        rw [if_neg hr] at h
        obtain ⟨t2, suf, h1, h2, h3⟩ := ih id h
        refine ⟨t2, suf, h1, h2, ?_⟩
        simpa [drainReadyGo, hf, hr] using h3

theorem acquireLoop_all_none (cfg : SandboxConfig) (states : Nat → PoolState)
    (envs : Nat → CreateEnv) (sid : Option String) (now : Nat) :
    ∀ (rem idx : Nat),
      (∀ k, k < rem →
        attemptAcquire cfg (states (idx + k)) sid now (envs (idx + k)) = none) →
      acquireLoop cfg states envs sid now idx rem =
        .exhausted cfg.pool.maxTotal
          (ACQUIRE_MAX_RETRIES * ACQUIRE_RETRY_INTERVAL_MS) := by
  intro rem
  induction rem with
  | zero => intro idx _; rfl
  | succ n ih =>
    intro idx h
    have h0 := h 0 (by omega)
    rw [Nat.add_zero] at h0
    rw [acquireLoop, h0]
    exact ih (idx + 1) (fun k hk => by
      have hk2 := h (k + 1) (by omega)
      rw [show idx + (k + 1) = idx + 1 + k by omega] at hk2
      exact hk2)

theorem acquireLoop_first_some (cfg : SandboxConfig) (states : Nat → PoolState)
    (envs : Nat → CreateEnv) (sid : Option String) (now : Nat) :
    ∀ (rem idx k : Nat), k < rem →
      (∀ j, j < k →
        attemptAcquire cfg (states (idx + j)) sid now (envs (idx + j)) = none) →
      ∀ sres, attemptAcquire cfg (states (idx + k)) sid now (envs (idx + k)) = some sres →
      acquireLoop cfg states envs sid now idx rem =
        (match sres with
         | .got id st => .acquired id st ((idx + k) * ACQUIRE_RETRY_INTERVAL_MS)
         | .createThrew e => .createFailed e ((idx + k) * ACQUIRE_RETRY_INTERVAL_MS)) := by
  intro rem
  induction rem with
  | zero => intro idx k hk; exact absurd hk (by omega)
  | succ n ih =>
    intro idx k hk hprev sres hsome
    cases k with
    | zero =>
      rw [Nat.add_zero] at hsome
      rw [acquireLoop, hsome]
      cases sres <;> simp
    | succ kp =>
      have h0 := hprev 0 (by omega)
      rw [Nat.add_zero] at h0
      rw [acquireLoop, h0]
      have hres := ih (idx + 1) kp (by omega)
        (fun j hj => by
          have hj2 := hprev (j + 1) (by omega)
          rw [show idx + (j + 1) = idx + 1 + j by omega] at hj2
          exact hj2)
        sres
        (by rw [show idx + 1 + kp = idx + (kp + 1) by omega]; exact hsome)
      rw [show idx + 1 + kp = idx + (kp + 1) by omega] at hres
      exact hres

/-- C2: `acquire` lazily initializes exactly on the first call and rejects
with `SandboxUnavailable` when shutdown has been requested.  Otherwise it
makes up to `1 + ACQUIRE_MAX_RETRIES = 4` attempts, sleeping
`ACQUIRE_RETRY_INTERVAL_MS = 2000` ms before each repeat, resolving with
the first attempt that succeeds and throwing `PoolExhausted(maxTotal)`
when all fail.  An attempt fails exactly when the ready queue yields no
id whose record is still present and `Ready`, and the pool is full;
step 1 pops ids FIFO and, for the first usable id, transitions it to
`Executing` and stamps `sessionId`/`lastUsedAt`; step 2, when the tracked
count is strictly below `maxTotal`, creates a fresh sandbox and returns
it transitioned to `Executing`. -/
theorem C2_acquire :
    ∀ (cfg : SandboxConfig) (flags : ManagerFlags) (states : Nat → PoolState)
      (envs : Nat → CreateEnv) (sid : Option String) (now : Nat),
      (acquire cfg flags states envs sid now).1 = !flags.initialized ∧
      (flags.shutdownRequested = true →
        (acquire cfg flags states envs sid now).2 = .unavailable) ∧
      (flags.shutdownRequested = false →
        ((∀ i, i < 1 + ACQUIRE_MAX_RETRIES →
            attemptAcquire cfg (states i) sid now (envs i) = none) →
          (acquire cfg flags states envs sid now).2 =
            .exhausted cfg.pool.maxTotal
              (ACQUIRE_MAX_RETRIES * ACQUIRE_RETRY_INTERVAL_MS)) ∧
        (∀ i, i < 1 + ACQUIRE_MAX_RETRIES →
          (∀ j, j < i → attemptAcquire cfg (states j) sid now (envs j) = none) →
          (∀ id st', attemptAcquire cfg (states i) sid now (envs i) =
              some (.got id st') →
            (acquire cfg flags states envs sid now).2 =
              .acquired id st' (i * ACQUIRE_RETRY_INTERVAL_MS)) ∧
          (∀ e, attemptAcquire cfg (states i) sid now (envs i) =
              some (.createThrew e) →
            (acquire cfg flags states envs sid now).2 =
              .createFailed e (i * ACQUIRE_RETRY_INTERVAL_MS)))) ∧
      (∀ (st : PoolState) (env : CreateEnv),
        (attemptAcquire cfg st sid now env = none ↔
          firstReadyInQueue st.sandboxes st.readyQueue = none ∧
            cfg.pool.maxTotal ≤ st.sandboxes.length) ∧
        (∀ id, firstReadyInQueue st.sandboxes st.readyQueue = some id →
          ∃ t suf, findSandbox st.sandboxes id = some t ∧ t.state = .Ready ∧
            attemptAcquire cfg st sid now env =
              some (.got id ⟨setSandbox st.sandboxes
                { t with state := .Executing, sessionId := sid, lastUsedAt := now },
                suf⟩)) ∧
        (firstReadyInQueue st.sandboxes st.readyQueue = none →
          st.sandboxes.length < cfg.pool.maxTotal →
          env.o1 = .success →
          findSandbox st.sandboxes env.id1 = none →
          attemptAcquire cfg st sid now env =
            some (.got env.id1
              ⟨st.sandboxes ++ [⟨env.id1, true, .Executing, now, now, 0, sid⟩],
                []⟩))) := by
  intro cfg flags states envs sid now
  refine ⟨rfl, ?_, ?_, ?_⟩
  · intro hsd
    simp [acquire, hsd]
  · intro hsd
    constructor
    · intro hall
      simp only [acquire, hsd, if_false, Bool.false_eq_true]
      exact acquireLoop_all_none cfg states envs sid now (1 + ACQUIRE_MAX_RETRIES) 0
        (fun k hk => by simpa using hall k (by simpa using hk))
    · intro i hi hprev
      constructor
      · intro id st' hsome
        simp only [acquire, hsd, if_false, Bool.false_eq_true]
        have := acquireLoop_first_some cfg states envs sid now
          (1 + ACQUIRE_MAX_RETRIES) 0 i (by simpa using hi)
          (fun j hj => by simpa using hprev j hj)
          (.got id st') (by simpa using hsome)
        simpa using this
      · intro e hsome
        simp only [acquire, hsd, if_false, Bool.false_eq_true]
        have := acquireLoop_first_some cfg states envs sid now
          (1 + ACQUIRE_MAX_RETRIES) 0 i (by simpa using hi)
          (fun j hj => by simpa using hprev j hj)
          (.createThrew e) (by simpa using hsome)
        simpa using this
  · intro st env
    refine ⟨?_, ?_, ?_⟩
    · constructor
      · intro hnone
        cases hd : drainReady st sid now with
        | some pr =>
          rw [attemptAcquire, hd] at hnone
          exact absurd hnone (by simp)
        | none =>
          have hfr : firstReadyInQueue st.sandboxes st.readyQueue = none :=
            (drainReadyGo_none_iff st.sandboxes sid now st.readyQueue).mp hd
          refine ⟨hfr, ?_⟩
          simp only [attemptAcquire, hd] at hnone
          by_cases hlt : st.sandboxes.length < cfg.pool.maxTotal
          · exfalso
            rw [if_pos hlt] at hnone
            cases hout : (createTrackedSandbox ⟨st.sandboxes, []⟩ env.id1 env.id2
                sid now env.o1 env.o2).outcome with
            | error e => simp [hout] at hnone
            | ok cid =>
              cases hfind : findSandbox (createTrackedSandbox ⟨st.sandboxes, []⟩
                  env.id1 env.id2 sid now env.o1 env.o2).pool.sandboxes cid with
              | none => simp [hout, hfind] at hnone
              | some t => simp [hout, hfind] at hnone
          · omega
      · rintro ⟨hfr, hge⟩
        have hd : drainReady st sid now = none :=
          (drainReadyGo_none_iff st.sandboxes sid now st.readyQueue).mpr hfr
        rw [attemptAcquire, hd]
        have : ¬ st.sandboxes.length < cfg.pool.maxTotal := by omega
        simp [this]
    · intro id hfr
      obtain ⟨t, suf, h1, h2, h3⟩ := drainReadyGo_some st.sandboxes sid now
        st.readyQueue id hfr
      refine ⟨t, suf, h1, h2, ?_⟩
      rw [attemptAcquire]
      rw [show drainReady st sid now = some (id, ⟨setSandbox st.sandboxes
        { t with state := .Executing, sessionId := sid, lastUsedAt := now }, suf⟩)
        from h3]
    · intro hfr hlt ho1 hfresh
      obtain ⟨i1, i2, o1v, o2v⟩ := env
      have ho1v : o1v = AttemptOutcome.success := ho1
      subst ho1v
      have hfresh1 : findSandbox st.sandboxes i1 = none := hfresh
      have hd : drainReady st sid now = none :=
        (drainReadyGo_none_iff st.sandboxes sid now st.readyQueue).mpr hfr
      have hcs := createTrackedSandbox_success ⟨st.sandboxes, []⟩ i1 i2
        sid now o2v hfresh1
      have hrec : (attemptRecord i1 sid now .success) =
          ⟨i1, true, .Ready, now, now, 0, sid⟩ := rfl
      have hfd : findSandbox (st.sandboxes ++ [attemptRecord i1 sid now .success])
          i1 = some (attemptRecord i1 sid now .success) := by
        have := findSandbox_append_some st.sandboxes
          (attemptRecord i1 sid now .success) (by rw [hrec]; exact hfresh1)
        rwa [hrec] at this
      have hset : setSandbox (st.sandboxes ++ [attemptRecord i1 sid now .success])
          { attemptRecord i1 sid now .success with state := .Executing } =
          st.sandboxes ++ [{ attemptRecord i1 sid now .success with
            state := .Executing }] := by
        apply setSandbox_append_same
        · rw [hrec]; exact hfresh1
        · rfl
      show attemptAcquire cfg st sid now ⟨i1, i2, .success, o2v⟩ =
        some (.got i1 ⟨st.sandboxes ++ [⟨i1, true, .Executing, now, now, 0, sid⟩], []⟩)
      simp only [attemptAcquire, hd]
      rw [if_pos (by simpa using hlt)]
      simp only [hcs, hfd]
      rw [hset]
      rfl

/-- Witness for C2 at concrete inputs: a warm `Ready` sandbox at the head
of the queue is handed out by the first attempt with no sleeping. -/
theorem C2_acquire_witness :
    (acquire ⟨⟨0, 1, 300000⟩, ⟨30000, 3⟩⟩ ⟨true, false⟩
        (fun _ => ⟨[⟨"w", true, .Ready, 0, 0, 0, none⟩], ["w"]⟩)
        (fun _ => ⟨"n1", "n2", .success, .success⟩) (some "s") 9).2 =
      .acquired "w" ⟨[⟨"w", true, .Executing, 0, 9, 0, some "s"⟩], []⟩ 0 :=
  (((C2_acquire ⟨⟨0, 1, 300000⟩, ⟨30000, 3⟩⟩ ⟨true, false⟩
      (fun _ => ⟨[⟨"w", true, .Ready, 0, 0, 0, none⟩], ["w"]⟩)
      (fun _ => ⟨"n1", "n2", .success, .success⟩) (some "s") 9).2.2.1 rfl).2
    0 (by omega) (fun j hj => absurd hj (by omega))).1
    "w" ⟨[⟨"w", true, .Executing, 0, 9, 0, some "s"⟩], []⟩ rfl

end SandboxPool
